import Mathlib

/-!
# Verification of the ai-code-gate scoring core

Shallow embedding of the maintainability-score calculator
(`scripts/score.py`) and the score history store
(`scripts/score_store.py`).  Python floats are modelled as rationals
(all arithmetic in these scripts is on small decimal values), Python
strings used only as payloads are modelled as `String` or `List Char`,
SQLite rows as a Lean structure, and fallible Python code (uncaught
exceptions) as `Except Unit`.
-/

namespace AiCodeGate

/-! ## `lerp_score` (score.py lines 123-153) -/

/-- Embedding of `lerp_score(value, excellent, acceptable, poor, max_pts,
invert)`.  When `invert` is set the value and all three thresholds are
negated first; then the "higher is better" chain of comparisons is
applied exactly as in the source. -/
def lerp_score (value excellent acceptable poor max_pts : ℚ)
    (invert : Bool) : ℚ :=
  let v := if invert then -value else value
  let e := if invert then -excellent else excellent
  let a := if invert then -acceptable else acceptable
  let p := if invert then -poor else poor
  if v ≥ e then max_pts
  else if v ≥ a then
    max_pts * (1/2) + max_pts * (1/2) * ((v - a) / (e - a))
  else if v ≥ p then
    max_pts * (1/2) * ((v - p) / (a - p))
  else 0

/-- The spec's piecewise-linear curve, written from the spec's four
bullet points (higher-is-better orientation), for comparison with
`lerp_score`. -/
def specCurve (value excellent acceptable poor max_pts : ℚ) : ℚ :=
  if value ≥ excellent then max_pts
  else if acceptable ≤ value ∧ value < excellent then
    max_pts * (1/2) + max_pts * (1/2) *
      ((value - acceptable) / (excellent - acceptable))
  else if poor ≤ value ∧ value < acceptable then
    max_pts * (1/2) * ((value - poor) / (acceptable - poor))
  else 0

/-- Guard under which `lerp_score` (after orientation) enters the branch
dividing by `excellent - acceptable`: first comparison failed, second
succeeded. -/
def upperBranchGuard (v e a : ℚ) : Prop := ¬ v ≥ e ∧ v ≥ a

/-- Guard under which `lerp_score` (after orientation) enters the branch
dividing by `acceptable - poor`: first two comparisons failed, third
succeeded. -/
def lowerBranchGuard (v e a p : ℚ) : Prop := ¬ v ≥ e ∧ ¬ v ≥ a ∧ v ≥ p

end AiCodeGate

namespace AiCodeGate

/-- C1: `lerp_score` with `invert` first negates the value and the three
thresholds and then applies the higher-is-better logic; without `invert`
it computes exactly the spec's piecewise-linear curve; and the six
concrete interpolation values from the spec hold. -/
theorem lerp_score_matches_spec (v e a p m : ℚ) (h1 : p < a) (h2 : a < e) :
    lerp_score v e a p m true = lerp_score (-v) (-e) (-a) (-p) m false ∧
    lerp_score v e a p m false = specCurve v e a p m ∧
    lerp_score 90 90 70 40 35 false = 35 ∧
    lerp_score 70 90 70 40 35 false = 35/2 ∧
    lerp_score 40 90 70 40 35 false = 0 ∧
    lerp_score 5 5 10 20 40 true = 40 ∧
    lerp_score 10 5 10 20 40 true = 20 ∧
    lerp_score 20 5 10 20 40 true = 0 := by
  refine ⟨rfl, ?_, by norm_num [lerp_score], by norm_num [lerp_score],
    by norm_num [lerp_score], by norm_num [lerp_score],
    by norm_num [lerp_score], by norm_num [lerp_score]⟩
  unfold lerp_score specCurve
  simp only [if_false, Bool.false_eq_true]
  rcases le_or_lt e v with hve | hve
  · rw [if_pos hve, if_pos hve]
  · have hne : ¬ v ≥ e := not_le.mpr hve
    rw [if_neg hne, if_neg hne]
    rcases le_or_lt a v with hva | hva
    · rw [if_pos hva, if_pos (show a ≤ v ∧ v < e from ⟨hva, hve⟩)]
    · have hna : ¬ v ≥ a := not_le.mpr hva
      rw [if_neg hna,
        if_neg (show ¬ (a ≤ v ∧ v < e) from fun hc => hna hc.1)]
      rcases le_or_lt p v with hvp | hvp
      · rw [if_pos hvp, if_pos (show p ≤ v ∧ v < a from ⟨hvp, hva⟩)]
      · have hnp : ¬ v ≥ p := not_le.mpr hvp
        rw [if_neg hnp,
          if_neg (show ¬ (p ≤ v ∧ v < a) from fun hc => hnp hc.1)]

/-- Witness for `lerp_score_matches_spec` at `v = 70`, thresholds
`90 > 70 > 40`, `max_pts = 35`. -/
theorem lerp_score_matches_spec_witness :
    lerp_score 70 90 70 40 35 false = specCurve 70 90 70 40 35 :=
  (lerp_score_matches_spec 70 90 70 40 35 (by norm_num) (by norm_num)).2.1

/-- C10: the division by `excellent - acceptable` is guarded by
`acceptable ≤ value < excellent` (so its denominator is nonzero whenever
the branch is entered), the division by `acceptable - poor` is guarded by
`poor ≤ value < acceptable`, both guards are empty for a zero-width
interval, and a value at a zero-width boundary `excellent = acceptable`
falls into the first branch and receives `max_pts`. -/
theorem lerp_score_no_division_by_zero (v e a p m : ℚ) :
    (upperBranchGuard v e a → (a ≤ v ∧ v < e) ∧ e - a ≠ 0) ∧
    (lowerBranchGuard v e a p → (p ≤ v ∧ v < a) ∧ a - p ≠ 0) ∧
    (e = a → v ≥ e → lerp_score v e a p m false = m) := by
  refine ⟨fun hg => ?_, fun hg => ?_, fun hea hv => ?_⟩
  · obtain ⟨hne, hva⟩ := hg
    have hlt : v < e := not_le.mp hne
    exact ⟨⟨hva, hlt⟩, sub_ne_zero.mpr (ne_of_gt (lt_of_le_of_lt hva hlt))⟩
  · obtain ⟨_, hna, hvp⟩ := hg
    have hlt : v < a := not_le.mp hna
    exact ⟨⟨hvp, hlt⟩, sub_ne_zero.mpr (ne_of_gt (lt_of_le_of_lt hvp hlt))⟩
  · unfold lerp_score
    simp only [if_false, Bool.false_eq_true]
    rw [if_pos hv]

/-- Witness for `lerp_score_no_division_by_zero` with the upper guard
satisfied at `v = 80`, `e = 90`, `a = 70`, and the zero-width step at
`e = a = 10`, `v = 10`. -/
theorem lerp_score_no_division_by_zero_witness :
    ((70 ≤ (80:ℚ) ∧ (80:ℚ) < 90) ∧ (90:ℚ) - 70 ≠ 0) ∧
    lerp_score 10 10 10 5 25 false = 25 :=
  ⟨(lerp_score_no_division_by_zero 80 90 70 40 35).1
      ⟨by norm_num, by norm_num⟩,
   (lerp_score_no_division_by_zero 10 10 10 5 25).2.2 rfl (by norm_num)⟩

end AiCodeGate

namespace AiCodeGate

/-! ## `ScoreBreakdown`, `build_report` pass/fail and the exit code
(score.py lines 104-117, 376-380, 551-552) -/

/-- Embedding of the `ScoreBreakdown` dataclass. -/
structure ScoreBreakdown where
  complexity_score : ℚ := 0
  coverage_score : ℚ := 0
  antipattern_score : ℚ := 0
  complexity_detail : String := ""
  coverage_detail : String := ""
  antipattern_detail : String := ""
  warnings : List String := []
  languages : List String := ["python"]

/-- The `total` property: sum of the three per-signal scores. -/
def ScoreBreakdown.total (b : ScoreBreakdown) : ℚ :=
  b.complexity_score + b.coverage_score + b.antipattern_score

/-- `passed = total >= threshold` as computed at the top of
`build_report` (and reused for the status icon and status word). -/
def build_report_passed (b : ScoreBreakdown) (threshold : ℚ) : Bool :=
  b.total ≥ threshold

/-- Exit code of `main`: `sys.exit(1)` iff `--fail-on-threshold` was
given and `total < threshold`; otherwise the process falls off the end
of `main` and exits 0. -/
def main_exit_code (fail_on_threshold : Bool) (total threshold : ℚ) : Nat :=
  if fail_on_threshold ∧ total < threshold then 1 else 0

/-- C2: the gate passes iff the total is ≥ the threshold (equality
passes), and the exit code is 1 iff `--fail-on-threshold` is set and the
total is strictly below the threshold, else 0. -/
theorem gate_pass_and_exit_code (b : ScoreBreakdown) (threshold : ℚ)
    (fail_on_threshold : Bool) :
    (build_report_passed b threshold = true ↔ b.total ≥ threshold) ∧
    (main_exit_code fail_on_threshold b.total threshold = 1 ↔
      fail_on_threshold = true ∧ b.total < threshold) ∧
    (main_exit_code fail_on_threshold b.total threshold = 0 ↔
      ¬ (fail_on_threshold = true ∧ b.total < threshold)) := by
  refine ⟨by simp [build_report_passed], ?_, ?_⟩ <;>
    · unfold main_exit_code
      split <;> simp_all

/-- Witness for `gate_pass_and_exit_code`: a breakdown totalling exactly
the threshold passes, and a total of 50 under threshold 70 with
`--fail-on-threshold` exits 1. -/
theorem gate_pass_and_exit_code_witness :
    build_report_passed ⟨40, 20, 10, "", "", "", [], ["python"]⟩ 70 =
      true ∧
    main_exit_code true
      (ScoreBreakdown.total ⟨50, 0, 0, "", "", "", [], ["python"]⟩) 70 =
      1 :=
  ⟨(gate_pass_and_exit_code ⟨40, 20, 10, "", "", "", [], ["python"]⟩
      70 true).1.mpr (by norm_num [ScoreBreakdown.total]),
   (gate_pass_and_exit_code ⟨50, 0, 0, "", "", "", [], ["python"]⟩
      70 true).2.1.mpr ⟨rfl, by norm_num [ScoreBreakdown.total]⟩⟩

end AiCodeGate

namespace AiCodeGate

/-! ## `load_pyproject_config` (score.py lines 56-98)

The file system and `tomllib` are modelled by a `FileResult` input:
the file can be missing, unreadable (`open`/`read` raises inside the
`try`), malformed (`tomllib.load` raises inside the `try`), or parsed
into a TOML value.  Everything the function does *after* the `try`
block — `dict.get`, `in`, indexing, `int()`, `float()` — can raise on
oddly-typed values, and those exceptions are uncaught, so the
embedding runs in `Except Unit`. -/

/-- Model of a value parsed from a TOML document by `tomllib`
(restricted to the kinds relevant here: integers, floats, booleans,
strings and tables; arrays and datetimes are omitted). -/
inductive TomlVal where
  | vInt : ℤ → TomlVal
  | vFloat : ℚ → TomlVal
  | vBool : Bool → TomlVal
  | vStr : String → TomlVal
  | vTable : List (String × TomlVal) → TomlVal

/-- Python `v.get(k, default)`: key lookup with default on a dict;
`AttributeError` on any non-dict value. -/
def pyGet (v : TomlVal) (k : String) (d : TomlVal) : Except Unit TomlVal :=
  match v with
  | .vTable kvs => .ok ((kvs.lookup k).getD d)
  | _ => .error ()

/-- Python `k in v`: key-membership test on a dict, substring test on a
string; `TypeError` on numbers and booleans. -/
def pyContains (v : TomlVal) (k : String) : Except Unit Bool :=
  match v with
  | .vTable kvs => .ok (kvs.any (fun kv => kv.1 == k))
  | .vStr s => .ok (decide (k.data <:+: s.data))
  | _ => .error ()

/-- Python `v[k]`: `KeyError` when the key is missing, `TypeError` on
non-dict values. -/
def pyItem (v : TomlVal) (k : String) : Except Unit TomlVal :=
  match v with
  | .vTable kvs =>
    match kvs.lookup k with
    | some x => .ok x
    | none => .error ()
  | _ => .error ()

/-- Python `str.strip()` on a character list: drop leading and trailing
whitespace. -/
def trimChars (cs : List Char) : List Char :=
  ((cs.dropWhile Char.isWhitespace).reverse.dropWhile
    Char.isWhitespace).reverse

/-- Parse a nonempty run of decimal digits, as a building block for
Python `int()`/`float()` on strings. -/
def digitsToNat? (cs : List Char) : Option ℕ :=
  if cs = [] then none
  else if cs.all Char.isDigit then
    some (cs.foldl (fun n c => 10 * n + (c.toNat - 48)) 0)
  else none

/-- Split a trimmed numeral into a sign factor and the remaining
characters. -/
def splitSign (cs : List Char) : ℚ × List Char :=
  match cs with
  | '-' :: rest => (-1, rest)
  | '+' :: rest => (1, rest)
  | _ => (1, cs)

/-- Decimal numeral parser modelling the numeric strings Python
`float()` accepts: optional sign, digits, optional fraction part
(exponents, underscores and special values are omitted). -/
def parseDecimal (s : String) : Option ℚ :=
  let su := splitSign (trimChars s.data)
  match (su.2).splitOn '.' with
  | [a] => (digitsToNat? a).map (fun n => su.1 * n)
  | [a, b] =>
    if a = [] && b = [] then none
    else
      match (if a = [] then some 0 else digitsToNat? a),
            (if b = [] then some 0 else digitsToNat? b) with
      | some x, some y =>
        some (su.1 * ((x : ℚ) + (y : ℚ) / 10 ^ b.length))
      | _, _ => none
  | _ => none

/-- Integer numeral parser modelling the strings Python `int()`
accepts: optional sign, digits only. -/
def parseInteger (s : String) : Option ℤ :=
  let su := splitSign (trimChars s.data)
  (digitsToNat? su.2).map (fun n => (if su.1 < 0 then -1 else 1) * n)

/-- Python `int(v)`: integers pass through, floats truncate toward
zero, booleans coerce to 0/1, integer-numeral strings parse; any other
string, and tables, raise (`ValueError`/`TypeError`). -/
def pyMakeInt (v : TomlVal) : Except Unit ℤ :=
  match v with
  | .vInt n => .ok n
  | .vFloat q => .ok (if 0 ≤ q then ⌊q⌋ else ⌈q⌉)
  | .vBool b => .ok (if b then 1 else 0)
  | .vStr s =>
    match parseInteger s with
    | some n => .ok n
    | none => .error ()
  | .vTable _ => .error ()

/-- Python `float(v)`: integers and floats pass through, booleans
coerce to 0/1, decimal-numeral strings parse; any other string, and
tables, raise (`ValueError`/`TypeError`). -/
def pyMakeFloat (v : TomlVal) : Except Unit ℚ :=
  match v with
  | .vInt n => .ok n
  | .vFloat q => .ok q
  | .vBool b => .ok (if b then 1 else 0)
  | .vStr s =>
    match parseDecimal s with
    | some q => .ok q
    | none => .error ()
  | .vTable _ => .error ()

/-- Outcome of trying to read and parse the configuration file. -/
inductive FileResult where
  | missing
  | unreadable
  | malformed
  | parsed : TomlVal → FileResult

/-- The flat override dict built by `load_pyproject_config`: key
`"threshold"` maps to an int, the nine `<prefix>_<key>` keys map to
floats; an absent option models an absent key. -/
structure Overrides where
  threshold : Option ℤ := none
  complexity_excellent : Option ℚ := none
  complexity_acceptable : Option ℚ := none
  complexity_poor : Option ℚ := none
  coverage_excellent : Option ℚ := none
  coverage_acceptable : Option ℚ := none
  coverage_poor : Option ℚ := none
  antipattern_excellent : Option ℚ := none
  antipattern_acceptable : Option ℚ := none
  antipattern_poor : Option ℚ := none

/-- One iteration of the inner loop: `if key in sub:
result[f"{prefix}_{key}"] = float(sub[key])`. -/
def readSectionKey (sub : TomlVal) (key : String) :
    Except Unit (Option ℚ) := do
  if (← pyContains sub key) then
    let v ← pyItem sub key
    let q ← pyMakeFloat v
    return some q
  else
    return none

/-- One iteration of the outer loop: `sub = gate.get(section, {})`
followed by the three keys excellent/acceptable/poor. -/
def readSection (gate : TomlVal) (section' : String) :
    Except Unit (Option ℚ × Option ℚ × Option ℚ) := do
  let sub ← pyGet gate section' (.vTable [])
  let e ← readSectionKey sub "excellent"
  let a ← readSectionKey sub "acceptable"
  let p ← readSectionKey sub "poor"
  return (e, a, p)

/-- The body of `load_pyproject_config` after a successful
`tomllib.load`: extract `[tool.ai-gate]` and build the override dict. -/
def load_from_data (data : TomlVal) : Except Unit Overrides := do
  let tool ← pyGet data "tool" (.vTable [])
  let gate ← pyGet tool "ai-gate" (.vTable [])
  let thr ←
    if (← pyContains gate "threshold") then do
      let v ← pyItem gate "threshold"
      let n ← pyMakeInt v
      pure (some n)
    else
      pure none
  let cx ← readSection gate "complexity"
  let cov ← readSection gate "coverage"
  let ap ← readSection gate "antipatterns"
  return { threshold := thr,
           complexity_excellent := cx.1, complexity_acceptable := cx.2.1,
           complexity_poor := cx.2.2,
           coverage_excellent := cov.1, coverage_acceptable := cov.2.1,
           coverage_poor := cov.2.2,
           antipattern_excellent := ap.1, antipattern_acceptable := ap.2.1,
           antipattern_poor := ap.2.2 }

/-- Embedding of `load_pyproject_config(config_path)`.  When no path is
given, auto-discovery falls back to `cwd/pyproject.toml` (the
`cwd_file` argument); a missing file returns `{}` in both branches, an
unreadable or malformed file is caught by the `try`/`except` and
returns `{}`, and a parsed file is handed to `load_from_data`. -/
def load_pyproject_config (config_path : Option FileResult)
    (cwd_file : FileResult) : Except Unit Overrides :=
  let file := match config_path with
    | none => cwd_file
    | some f => f
  match file with
  | .missing => .ok {}
  | .unreadable => .ok {}
  | .malformed => .ok {}
  | .parsed data => load_from_data data

/-- A syntactically valid TOML document whose `[tool.ai-gate]` section
holds `threshold = "abc"`. -/
def nonNumericThresholdConfig : TomlVal :=
  .vTable [("tool", .vTable [("ai-gate",
    .vTable [("threshold", .vStr "abc")])])]

/-- A syntactically valid TOML document (`tool = 5`) whose top-level
`tool` value is an integer rather than a table. -/
def nonTableToolConfig : TomlVal :=
  .vTable [("tool", .vInt 5)]

/-- C3 counterexample: `load_pyproject_config` does raise on some
configuration files.  A file that parses as TOML but stores a
non-numeric string under `threshold` reaches the uncaught
`int(gate["threshold"])` conversion, which raises `ValueError`; a file
whose `tool` value is not a table makes `data.get("tool",
{}).get("ai-gate", {})` raise `AttributeError`.  Both sit outside the
`try`/`except` block, which ends at line 80 of score.py. -/
theorem load_pyproject_config_raises :
    load_pyproject_config (some (.parsed nonNumericThresholdConfig))
      .missing = .error () ∧
    load_pyproject_config (some (.parsed nonTableToolConfig))
      .missing = .error () :=
  ⟨rfl, rfl⟩

/-- Reducing one `Except` bind whose first step already succeeded. -/
theorem except_bind_ok {α β : Type} (a : α) (f : α → Except Unit β) :
    (do let x ← Except.ok a; f x : Except Unit β) = f a :=
  rfl

/-- C3 amended: whenever the file the function reads — the explicit
path if one is given, else the auto-discovered `cwd/pyproject.toml` —
is missing, unreadable, or TOML-malformed, or parses to a table
without the gate section (no top-level `tool` key, or a `tool` table
with no `ai-gate` key), `load_pyproject_config` returns the empty
override set without raising. -/
theorem load_pyproject_config_safe_cases (cp : Option FileResult)
    (cw : FileResult) :
    (cp.getD cw = .missing → load_pyproject_config cp cw = .ok {}) ∧
    (cp.getD cw = .unreadable → load_pyproject_config cp cw = .ok {}) ∧
    (cp.getD cw = .malformed → load_pyproject_config cp cw = .ok {}) ∧
    (∀ kvs : List (String × TomlVal),
      cp.getD cw = .parsed (.vTable kvs) → kvs.lookup "tool" = none →
      load_pyproject_config cp cw = .ok {}) ∧
    (∀ (kvs t : List (String × TomlVal)),
      cp.getD cw = .parsed (.vTable kvs) →
      kvs.lookup "tool" = some (.vTable t) →
      t.lookup "ai-gate" = none →
      load_pyproject_config cp cw = .ok {}) := by
  have hfile : load_pyproject_config cp cw =
      load_pyproject_config (some (cp.getD cw)) .missing := by
    cases cp <;> rfl
  refine ⟨fun h => ?_, fun h => ?_, fun h => ?_,
    fun kvs h h1 => ?_, fun kvs t h h1 h2 => ?_⟩
  · rw [hfile, h]; rfl
  · rw [hfile, h]; rfl
  · rw [hfile, h]; rfl
  · rw [hfile, h]
    have e1 : pyGet (.vTable kvs) "tool" (.vTable []) =
        .ok (.vTable []) := by
      simp [pyGet, h1]
    show load_from_data (.vTable kvs) = .ok {}
    unfold load_from_data
    rw [e1, except_bind_ok]
    rfl
  · rw [hfile, h]
    have e1 : pyGet (.vTable kvs) "tool" (.vTable []) =
        .ok (.vTable t) := by
      simp [pyGet, h1]
    have e2 : pyGet (.vTable t) "ai-gate" (.vTable []) =
        .ok (.vTable []) := by
      simp [pyGet, h2]
    show load_from_data (.vTable kvs) = .ok {}
    unfold load_from_data
    rw [e1, except_bind_ok, e2, except_bind_ok]
    rfl

/-- Witness for `load_pyproject_config_safe_cases`: a missing explicit
file, an auto-discovered malformed file, a parsed empty table, and a
parsed file with a `[tool.black]` section but no `ai-gate` key all
yield the empty override set. -/
theorem load_pyproject_config_safe_cases_witness :
    load_pyproject_config (some .missing) .missing = .ok {} ∧
    load_pyproject_config none .malformed = .ok {} ∧
    load_pyproject_config (some (.parsed (.vTable []))) .missing =
      .ok {} ∧
    load_pyproject_config
      (some (.parsed
        (.vTable [("tool", .vTable [("black", .vTable [])])])))
      .missing = .ok {} :=
  ⟨(load_pyproject_config_safe_cases (some .missing) .missing).1 rfl,
   (load_pyproject_config_safe_cases none .malformed).2.2.1 rfl,
   (load_pyproject_config_safe_cases (some (.parsed (.vTable [])))
      .missing).2.2.2.1 [] rfl rfl,
   (load_pyproject_config_safe_cases
      (some (.parsed
        (.vTable [("tool", .vTable [("black", .vTable [])])])))
      .missing).2.2.2.2
      [("tool", .vTable [("black", .vTable [])])]
      [("black", .vTable [])] rfl rfl rfl⟩

end AiCodeGate

namespace AiCodeGate

/-! ## Threshold resolution in `main` (score.py lines 28-38, 466-490) -/

def DEFAULT_COMPLEXITY_EXCELLENT : ℚ := 5
def DEFAULT_COMPLEXITY_ACCEPTABLE : ℚ := 10
def DEFAULT_COMPLEXITY_POOR : ℚ := 20

def DEFAULT_COVERAGE_EXCELLENT : ℚ := 90
def DEFAULT_COVERAGE_ACCEPTABLE : ℚ := 70
def DEFAULT_COVERAGE_POOR : ℚ := 40

def DEFAULT_ANTIPATTERN_EXCELLENT : ℚ := 0
def DEFAULT_ANTIPATTERN_ACCEPTABLE : ℚ := 2
def DEFAULT_ANTIPATTERN_POOR : ℚ := 5

/-- The explicit CLI threshold flags (all default to `None`). -/
structure CliThresholds where
  threshold : Option ℤ := none
  complexity_excellent : Option ℚ := none
  complexity_acceptable : Option ℚ := none
  complexity_poor : Option ℚ := none
  coverage_excellent : Option ℚ := none
  coverage_acceptable : Option ℚ := none
  coverage_poor : Option ℚ := none
  antipattern_excellent : Option ℚ := none
  antipattern_acceptable : Option ℚ := none
  antipattern_poor : Option ℚ := none

/-- The local `resolve` closure in `main`: CLI value if provided, else
config value if present, else the built-in default. -/
def resolve (cli_val : Option ℚ) (cfg_val : Option ℚ) (default : ℚ) : ℚ :=
  match cli_val with
  | some v => v
  | none => cfg_val.getD default

/-- Line 473 of score.py: the pass/fail threshold is resolved the same
way, with built-in default 70. -/
def resolve_threshold (cli_val : Option ℤ) (cfg_val : Option ℤ) : ℤ :=
  match cli_val with
  | some t => t
  | none => cfg_val.getD 70

/-- The ten effective scalars used for scoring. -/
structure EffectiveThresholds where
  threshold : ℤ
  complexity_excellent : ℚ
  complexity_acceptable : ℚ
  complexity_poor : ℚ
  coverage_excellent : ℚ
  coverage_acceptable : ℚ
  coverage_poor : ℚ
  antipattern_excellent : ℚ
  antipattern_acceptable : ℚ
  antipattern_poor : ℚ

/-- Lines 466-490 of score.py: resolve every scalar from CLI flags, the
config-file overrides and the built-in defaults. -/
def effective_thresholds (args : CliThresholds) (cfg : Overrides) :
    EffectiveThresholds :=
  { threshold := resolve_threshold args.threshold cfg.threshold,
    complexity_excellent := resolve args.complexity_excellent
      cfg.complexity_excellent DEFAULT_COMPLEXITY_EXCELLENT,
    complexity_acceptable := resolve args.complexity_acceptable
      cfg.complexity_acceptable DEFAULT_COMPLEXITY_ACCEPTABLE,
    complexity_poor := resolve args.complexity_poor
      cfg.complexity_poor DEFAULT_COMPLEXITY_POOR,
    coverage_excellent := resolve args.coverage_excellent
      cfg.coverage_excellent DEFAULT_COVERAGE_EXCELLENT,
    coverage_acceptable := resolve args.coverage_acceptable
      cfg.coverage_acceptable DEFAULT_COVERAGE_ACCEPTABLE,
    coverage_poor := resolve args.coverage_poor
      cfg.coverage_poor DEFAULT_COVERAGE_POOR,
    antipattern_excellent := resolve args.antipattern_excellent
      cfg.antipattern_excellent DEFAULT_ANTIPATTERN_EXCELLENT,
    antipattern_acceptable := resolve args.antipattern_acceptable
      cfg.antipattern_acceptable DEFAULT_ANTIPATTERN_ACCEPTABLE,
    antipattern_poor := resolve args.antipattern_poor
      cfg.antipattern_poor DEFAULT_ANTIPATTERN_POOR }

/-- `e` was resolved from CLI value > config value > default. -/
def ResolvesFrom {α : Type} (e : α) (cli cfgv : Option α) (d : α) :
    Prop :=
  (∀ v, cli = some v → e = v) ∧
  (cli = none → ∀ w, cfgv = some w → e = w) ∧
  (cli = none → cfgv = none → e = d)

theorem resolve_resolvesFrom (c o : Option ℚ) (d : ℚ) :
    ResolvesFrom (resolve c o d) c o d := by
  unfold ResolvesFrom resolve
  cases c <;> cases o <;> simp

theorem resolve_threshold_resolvesFrom (c o : Option ℤ) :
    ResolvesFrom (resolve_threshold c o) c o 70 := by
  unfold ResolvesFrom resolve_threshold
  cases c <;> cases o <;> simp

/-- C4: every effective scalar is the CLI value when provided, else the
config value when present, else the built-in default; the built-in
defaults are complexity 5/10/20 (ascending, lower is better), coverage
90/70/40 (descending, higher is better), anti-pattern density 0/2/5
(ascending, lower is better), and pass/fail threshold 70. -/
theorem threshold_resolution (args : CliThresholds) (cfg : Overrides) :
    ResolvesFrom (effective_thresholds args cfg).threshold
      args.threshold cfg.threshold 70 ∧
    ResolvesFrom (effective_thresholds args cfg).complexity_excellent
      args.complexity_excellent cfg.complexity_excellent 5 ∧
    ResolvesFrom (effective_thresholds args cfg).complexity_acceptable
      args.complexity_acceptable cfg.complexity_acceptable 10 ∧
    ResolvesFrom (effective_thresholds args cfg).complexity_poor
      args.complexity_poor cfg.complexity_poor 20 ∧
    ResolvesFrom (effective_thresholds args cfg).coverage_excellent
      args.coverage_excellent cfg.coverage_excellent 90 ∧
    ResolvesFrom (effective_thresholds args cfg).coverage_acceptable
      args.coverage_acceptable cfg.coverage_acceptable 70 ∧
    ResolvesFrom (effective_thresholds args cfg).coverage_poor
      args.coverage_poor cfg.coverage_poor 40 ∧
    ResolvesFrom (effective_thresholds args cfg).antipattern_excellent
      args.antipattern_excellent cfg.antipattern_excellent 0 ∧
    ResolvesFrom (effective_thresholds args cfg).antipattern_acceptable
      args.antipattern_acceptable cfg.antipattern_acceptable 2 ∧
    ResolvesFrom (effective_thresholds args cfg).antipattern_poor
      args.antipattern_poor cfg.antipattern_poor 5 ∧
    (DEFAULT_COMPLEXITY_EXCELLENT < DEFAULT_COMPLEXITY_ACCEPTABLE ∧
     DEFAULT_COMPLEXITY_ACCEPTABLE < DEFAULT_COMPLEXITY_POOR) ∧
    (DEFAULT_COVERAGE_EXCELLENT > DEFAULT_COVERAGE_ACCEPTABLE ∧
     DEFAULT_COVERAGE_ACCEPTABLE > DEFAULT_COVERAGE_POOR) ∧
    (DEFAULT_ANTIPATTERN_EXCELLENT < DEFAULT_ANTIPATTERN_ACCEPTABLE ∧
     DEFAULT_ANTIPATTERN_ACCEPTABLE < DEFAULT_ANTIPATTERN_POOR) := by
  refine ⟨resolve_threshold_resolvesFrom _ _,
    resolve_resolvesFrom _ _ _, resolve_resolvesFrom _ _ _,
    resolve_resolvesFrom _ _ _, resolve_resolvesFrom _ _ _,
    resolve_resolvesFrom _ _ _, resolve_resolvesFrom _ _ _,
    resolve_resolvesFrom _ _ _, resolve_resolvesFrom _ _ _,
    resolve_resolvesFrom _ _ _, ?_, ?_, ?_⟩ <;>
  · constructor <;> norm_num [DEFAULT_COMPLEXITY_EXCELLENT,
      DEFAULT_COMPLEXITY_ACCEPTABLE, DEFAULT_COMPLEXITY_POOR,
      DEFAULT_COVERAGE_EXCELLENT, DEFAULT_COVERAGE_ACCEPTABLE,
      DEFAULT_COVERAGE_POOR, DEFAULT_ANTIPATTERN_EXCELLENT,
      DEFAULT_ANTIPATTERN_ACCEPTABLE, DEFAULT_ANTIPATTERN_POOR]

/-- Witness for `threshold_resolution`: with a CLI coverage-excellent of
95, a config complexity-poor of 25 and no CLI/config value for the
pass/fail threshold, the effective scalars are 95, 25 and 70. -/
theorem threshold_resolution_witness :
    (effective_thresholds { coverage_excellent := some 95 }
      { complexity_poor := some 25 }).coverage_excellent = 95 ∧
    (effective_thresholds { coverage_excellent := some 95 }
      { complexity_poor := some 25 }).complexity_poor = 25 ∧
    (effective_thresholds { coverage_excellent := some 95 }
      { complexity_poor := some 25 }).threshold = 70 := by
  have h := threshold_resolution { coverage_excellent := some 95 }
    { complexity_poor := some 25 }
  exact ⟨(h.2.2.2.2.1).1 95 rfl, (h.2.2.2.1).2.1 rfl 25 rfl,
    (h.1).2.2 rfl rfl⟩

end AiCodeGate

namespace AiCodeGate

/-! ## `measure_antipatterns` and `_count_loc`
(score.py lines 280-339) -/

/-- Directories excluded from LOC counting (score.py lines 41-50). -/
def LOC_EXCLUDE_DIRS : List String :=
  ["tests", "test", "scripts", "fuzz", ".venv", "venv",
   "node_modules", "__pycache__"]

/-- One `.py` file found by `root.rglob`: its path parts relative to
the root, and its lines (`none` models a file whose read raises
`OSError`, which the loop skips). -/
structure PyFile where
  parts : List String
  content : Option (List String)

/-- A line counts when its stripped form is nonempty and does not start
with `#`. -/
def countsLine (line : String) : Bool :=
  let stripped := trimChars line.data
  !stripped.isEmpty && !(stripped.head? == some '#')

/-- A file is skipped when its first relative path part is one of the
excluded directories. -/
def excludedFile (f : PyFile) : Bool :=
  match f.parts with
  | [] => false
  | d :: _ => LOC_EXCLUDE_DIRS.contains d

/-- Embedding of `_count_loc`: total counting lines over the
non-excluded, readable files, floored at 1. -/
def count_loc (files : List PyFile) : ℕ :=
  let total := files.foldl
    (fun acc f =>
      if excludedFile f then acc
      else
        match f.content with
        | none => acc
        | some lns => acc + (lns.filter countsLine).length)
    0
  max total 1

/-- The density computation in `measure_antipatterns` (line 295):
`finding_count / loc * 100` guarded by `loc > 0`. -/
def antipattern_density (finding_count : ℕ) (loc : ℕ) : ℚ :=
  if loc > 0 then (finding_count : ℚ) / (loc : ℚ) * 100 else 0

/-- A 100-line source tree: one root module with 100 counting lines and
a `tests` directory whose three lines are excluded from the count. -/
def exampleTree : List PyFile :=
  [{ parts := ["main.py"], content := some (List.replicate 100 "pass") },
   { parts := ["tests", "t.py"], content := some ["x", "y", "z"] }]

/-- C5: the LOC denominator is always at least 1, so the density is the
plain quotient `findings / LOC × 100` (the `loc > 0` guard always
holds); 2 findings over the 100-line example tree give density 2. -/
theorem antipattern_density_never_divides_by_zero
    (files : List PyFile) (fc : ℕ) :
    1 ≤ count_loc files ∧
    antipattern_density fc (count_loc files) =
      (fc : ℚ) / (count_loc files : ℚ) * 100 ∧
    count_loc exampleTree = 100 ∧
    antipattern_density 2 (count_loc exampleTree) = 2 := by
  have hpos : 1 ≤ count_loc files := le_max_right _ _
  have hd : count_loc exampleTree = 100 := by decide
  refine ⟨hpos, ?_, hd, ?_⟩
  · unfold antipattern_density
    rw [if_pos (Nat.lt_of_lt_of_le Nat.zero_lt_one hpos)]
  · rw [hd]
    unfold antipattern_density
    norm_num

/-- Witness for `antipattern_density_never_divides_by_zero`: the empty
tree still has denominator 1, and the example tree gives density 2. -/
theorem antipattern_density_never_divides_by_zero_witness :
    1 ≤ count_loc [] ∧
    antipattern_density 2 (count_loc exampleTree) = 2 :=
  ⟨(antipattern_density_never_divides_by_zero [] 0).1,
   (antipattern_density_never_divides_by_zero [] 0).2.2.2⟩

/-! ## Anti-pattern warning emission (score.py lines 302-314) -/

/-- One semgrep finding as it is rendered into a warning: the `path`,
`start.line` and `extra.message` (falling back to `check_id`, then
`"unknown"`) fields, already extracted with their `.get` defaults.
Python strings are modelled as character lists. -/
structure Finding where
  path : List Char := "?".data
  line : List Char := "?".data
  message : List Char := "unknown".data

/-- `msg.replace("\n", " ")[:120]`: newlines become spaces, then the
message is truncated to 120 characters. -/
def truncateMessage (msg : List Char) : List Char :=
  (msg.map (fun c => if c = '\n' then ' ' else c)).take 120

/-- The f-string `` `{path_str}:{line}` — {msg} `` for one finding. -/
def finding_warning (f : Finding) : List Char :=
  "`".data ++ f.path ++ ":".data ++ f.line ++ "` — ".data ++
    truncateMessage f.message

/-- The rollup warning emitted when more than 10 findings exist. -/
def rollup_warning (n : ℕ) : List Char :=
  "...and ".data ++ (toString n).data ++
    " more findings (see semgrep-results.json)".data

/-- The warning list built by `measure_antipatterns`: one warning per
finding for `results[:10]`, plus the rollup when `finding_count > 10`. -/
def antipattern_warnings (results : List Finding) : List (List Char) :=
  let individual := (results.take 10).map finding_warning
  if results.length > 10 then
    individual ++ [rollup_warning (results.length - 10)]
  else
    individual

/-- C6: the extractor emits `min(count, 10)` individual warnings plus
exactly one rollup iff there are more than 10 findings; each emitted
message is at most 120 characters and contains no newline; 15 findings
yield exactly 11 warnings. -/
theorem antipattern_warning_counts (results : List Finding) :
    (antipattern_warnings results).length =
      min results.length 10 + (if results.length > 10 then 1 else 0) ∧
    (antipattern_warnings (List.replicate 15 {})).length = 11 ∧
    (∀ f : Finding, (truncateMessage f.message).length ≤ 120 ∧
      '\n' ∉ truncateMessage f.message) := by
  refine ⟨?_, by decide, fun f => ⟨?_, ?_⟩⟩
  · unfold antipattern_warnings
    by_cases h : results.length > 10 <;>
      simp [h, List.length_take, Nat.min_comm]
  · unfold truncateMessage
    rw [List.length_take]
    exact Nat.min_le_left _ _
  · intro hmem
    unfold truncateMessage at hmem
    have hmap := List.mem_of_mem_take hmem
    obtain ⟨c, _, hc⟩ := List.mem_map.mp hmap
    by_cases hcn : c = '\n'
    · rw [if_pos hcn] at hc
      exact absurd hc (by decide)
    · rw [if_neg hcn] at hc
      exact hcn hc

/-- Witness for `antipattern_warning_counts`: a finding whose message
holds a newline and 130 `x`s is rendered without the newline and cut to
120 characters. -/
theorem antipattern_warning_counts_witness :
    (truncateMessage ('\n' :: List.replicate 130 'x')).length ≤ 120 ∧
    '\n' ∉ truncateMessage ('\n' :: List.replicate 130 'x') :=
  (antipattern_warning_counts []).2.2
    { message := '\n' :: List.replicate 130 'x' }

end AiCodeGate

namespace AiCodeGate

/-! ## The score history store (score_store.py)

One row of the `score_runs` table.  `recorded_at` is an ISO-8601 UTC
string whose lexicographic (SQLite `TEXT`) order is chronological
order; it is modelled as a natural number.  `ORDER BY recorded_at
DESC` reads the `(repo, recorded_at)` index backwards, which breaks
timestamp ties by descending rowid, so the sort key is the pair
`(recorded_at, id)` compared descending. -/
structure ScoreRun where
  id : ℕ
  recorded_at : ℕ
  repo : String
  branch : String
  pr : Option ℤ
  sha : String
  score : ℚ
  passed : Bool
  threshold : ℚ
  complexity_score : Option ℚ
  coverage_score : Option ℚ
  antipattern_score : Option ℚ
  deriving DecidableEq

/-- The largest row id in the table, 0 when the table is empty
(`AUTOINCREMENT` hands out `maxRowId + 1`). -/
def maxRowId (db : List ScoreRun) : ℕ :=
  db.foldl (fun m r => max m r.id) 0

/-- Embedding of `record_run`: append one immutable row whose `passed`
flag is `score >= threshold` and whose id is fresh, and return the new
table together with `cursor.lastrowid`. -/
def record_run (db : List ScoreRun) (now : ℕ) (score : ℚ)
    (repo branch : String) (pr : Option ℤ) (sha : String)
    (threshold : ℚ) (cx cov ap : Option ℚ) : List ScoreRun × ℕ :=
  let rid := maxRowId db + 1
  (db ++ [{ id := rid, recorded_at := now, repo := repo,
            branch := branch, pr := pr, sha := sha, score := score,
            passed := decide (score ≥ threshold), threshold := threshold,
            complexity_score := cx, coverage_score := cov,
            antipattern_score := ap }], rid)

/-- `r1` may precede `r2` in `ORDER BY recorded_at DESC` output:
`r1`'s `(recorded_at, id)` key is lexicographically at least `r2`'s. -/
def runBefore (r1 r2 : ScoreRun) : Prop :=
  r2.recorded_at < r1.recorded_at ∨
    (r2.recorded_at = r1.recorded_at ∧ r2.id ≤ r1.id)

instance : DecidableRel runBefore := fun a b => by
  unfold runBefore; exact inferInstance

instance : IsTotal ScoreRun runBefore :=
  ⟨fun a b => by unfold runBefore; omega⟩

instance : IsTrans ScoreRun runBefore :=
  ⟨fun a b c => by unfold runBefore; omega⟩

/-- The rows of a query result, newest first. -/
def sortDesc (l : List ScoreRun) : List ScoreRun :=
  l.insertionSort runBefore

/-- Embedding of `query_trend`: the `limit` newest runs of the repo,
reversed to oldest-first by the Python `reversed(rows)`. -/
def query_trend (db : List ScoreRun) (repo : String) (limit : ℕ) :
    List ScoreRun :=
  ((sortDesc (db.filter (fun r => r.repo == repo))).take limit).reverse

/-- Embedding of `query_latest`: `ORDER BY recorded_at DESC LIMIT 1`,
filtered by branch only when the branch argument is truthy (non-`None`
and nonempty). -/
def query_latest (db : List ScoreRun) (repo : String)
    (branch : Option String) : Option ScoreRun :=
  let matching :=
    match branch with
    | some b =>
      if b == "" then db.filter (fun r => r.repo == repo)
      else db.filter (fun r => r.repo == repo && r.branch == b)
    | none => db.filter (fun r => r.repo == repo)
  (sortDesc matching).head?

/-- Python `round(q, 1)` on exact values: round half to even at one
decimal place. -/
def pyRoundHalfEven (q : ℚ) : ℤ :=
  if q - ⌊q⌋ < 1/2 then ⌊q⌋
  else if 1/2 < q - ⌊q⌋ then ⌊q⌋ + 1
  else if ⌊q⌋ % 2 = 0 then ⌊q⌋ else ⌊q⌋ + 1

def round1 (q : ℚ) : ℚ := (pyRoundHalfEven (q * 10) : ℚ) / 10

/-- The aggregate row produced by `query_stats` for a non-empty repo. -/
structure StatsRow where
  total_runs : ℕ
  avg_score : ℚ
  best_score : ℚ
  worst_score : ℚ
  passed_runs : ℕ
  blocked_runs : ℕ
  pass_rate : ℚ
  deriving DecidableEq

/-- Embedding of `query_stats`: `none` models the empty dict returned
when `total_runs == 0`; otherwise `COUNT`/`AVG`/`MAX`/`MIN`/`SUM`
aggregates plus the Python-side `pass_rate`. -/
def query_stats (db : List ScoreRun) (repo : String) : Option StatsRow :=
  match db.filter (fun r => r.repo == repo) with
  | [] => none
  | r :: rs =>
    let matching := r :: rs
    let total := matching.length
    let passed := (matching.filter (fun x => x.passed)).length
    some { total_runs := total,
           avg_score := (matching.map ScoreRun.score).sum / (total : ℚ),
           best_score := (matching.map ScoreRun.score).foldl max r.score,
           worst_score := (matching.map ScoreRun.score).foldl min r.score,
           passed_runs := passed,
           blocked_runs := total - passed,
           pass_rate := round1 ((passed : ℚ) / (total : ℚ) * 100) }

theorem sortDesc_sorted (l : List ScoreRun) :
    (sortDesc l).Sorted runBefore :=
  List.sorted_insertionSort runBefore l

theorem mem_sortDesc {x : ScoreRun} {l : List ScoreRun} :
    x ∈ sortDesc l ↔ x ∈ l :=
  List.mem_insertionSort runBefore

theorem sortDesc_head_ge {l t : List ScoreRun} {h : ScoreRun}
    (he : sortDesc l = h :: t) :
    h ∈ l ∧ ∀ x ∈ l, runBefore h x := by
  have hs := sortDesc_sorted l
  rw [he] at hs
  refine ⟨mem_sortDesc.mp (he ▸ List.mem_cons_self h t), fun x hx => ?_⟩
  have hx2 : x ∈ h :: t := he ▸ mem_sortDesc.mpr hx
  rcases List.mem_cons.mp hx2 with rfl | hxt
  · unfold runBefore; omega
  · exact (List.sorted_cons.mp hs).1 x hxt

theorem foldl_max_init_le (db : List ScoreRun) (init : ℕ) :
    init ≤ db.foldl (fun m r => max m r.id) init := by
  induction db generalizing init with
  | nil => exact le_refl _
  | cons x xs ih =>
    exact le_trans (Nat.le_max_left _ _) (ih (max init x.id))

theorem le_maxRowId {db : List ScoreRun} {r : ScoreRun} (hmem : r ∈ db) :
    r.id ≤ maxRowId db := by
  unfold maxRowId
  generalize 0 = init
  induction db generalizing init with
  | nil => exact absurd hmem (List.not_mem_nil r)
  | cons x xs ih =>
    rcases List.mem_cons.mp hmem with rfl | hxs
    · exact le_trans (Nat.le_max_right _ _)
        (foldl_max_init_le xs (max init r.id))
    · exact ih hxs (max init x.id)

/-- Three runs at scores 60, 70, 80 recorded in that order at
timestamps 1, 2, 3. -/
def trendDb : List ScoreRun :=
  (record_run (record_run (record_run [] 1 60 "org/repo" "main" none ""
    70 none none none).1 2 70 "org/repo" "main" none "" 70
    none none none).1 3 80 "org/repo" "main" none "" 70
    none none none).1

/-- C7: `query_trend` output is ordered oldest-first by the
`(recorded_at, id)` key, contains only stored runs of the queried
repository, and for the three runs at scores 60, 70, 80 recorded in
that order it returns them in the same order. -/
theorem query_trend_oldest_first (db : List ScoreRun) (repo : String)
    (limit : ℕ) :
    List.Sorted (fun a b => runBefore b a) (query_trend db repo limit) ∧
    (∀ r ∈ query_trend db repo limit, r ∈ db ∧ r.repo = repo) ∧
    (query_trend trendDb "org/repo" 30).map ScoreRun.score =
      [60, 70, 80] := by
  refine ⟨?_, fun r hr => ?_, by decide⟩
  · have h1 := sortDesc_sorted (db.filter (fun r => r.repo == repo))
    have h2 := List.Pairwise.sublist (List.take_sublist limit _) h1
    exact List.pairwise_reverse.mpr h2
  · have hr2 := List.mem_of_mem_take (List.mem_reverse.mp hr)
    have hr3 := List.mem_filter.mp (mem_sortDesc.mp hr2)
    exact ⟨hr3.1, by simpa using hr3.2⟩

/-- The first run stored in `trendDb`. -/
def trendRun1 : ScoreRun :=
  { id := 1, recorded_at := 1, repo := "org/repo", branch := "main",
    pr := none, sha := "", score := 60, passed := false, threshold := 70,
    complexity_score := none, coverage_score := none,
    antipattern_score := none }

/-- Witness for `query_trend_oldest_first`: the first run returned by
the trend query is a stored run of the queried repository. -/
theorem query_trend_oldest_first_witness :
    trendRun1 ∈ trendDb ∧ trendRun1.repo = "org/repo" :=
  (query_trend_oldest_first trendDb "org/repo" 30).2.1 trendRun1
    (by decide)

/-- C8: a repository with no stored runs gets an empty trend, an absent
latest run and an empty (`none`, no keys) stats aggregate; a non-empty
stats aggregate reports `pass_rate = passed_runs / total_runs × 100`
rounded to one decimal, with a positive run count. -/
theorem store_empty_repo_distinguished (db : List ScoreRun)
    (repo : String) (limit : ℕ) (branch : Option String) :
    (db.filter (fun r => r.repo == repo) = [] →
      query_trend db repo limit = [] ∧
      query_latest db repo branch = none ∧
      query_stats db repo = none) ∧
    (∀ s, query_stats db repo = some s →
      s.pass_rate =
        round1 ((s.passed_runs : ℚ) / (s.total_runs : ℚ) * 100) ∧
      0 < s.total_runs) := by
  constructor
  · intro h
    have hstrong : ∀ b : String,
        db.filter (fun r => r.repo == repo && r.branch == b) = [] := by
      intro b
      rw [List.filter_eq_nil_iff]
      intro a ha hpa
      exact (List.filter_eq_nil_iff.mp h) a ha
        (by simp_all)
    refine ⟨?_, ?_, ?_⟩
    · unfold query_trend
      rw [h]
      simp [sortDesc]
    · cases branch with
      | none =>
        simp only [query_latest]
        rw [h]
        simp [sortDesc]
      | some b =>
        simp only [query_latest]
        by_cases hb : b == ""
        · rw [if_pos hb, h]
          simp [sortDesc]
        · rw [if_neg hb, hstrong b]
          simp [sortDesc]
    · unfold query_stats
      rw [h]
  · intro s hs
    unfold query_stats at hs
    cases hf : db.filter (fun r => r.repo == repo) with
    | nil => rw [hf] at hs; exact absurd hs (by simp)
    | cons r rs =>
      rw [hf] at hs
      injection hs with h2
      subst h2
      exact ⟨rfl, Nat.succ_pos _⟩

/-- The stats aggregate of `trendDb` (two of the three runs pass the
threshold 70). -/
def trendStats : StatsRow :=
  (query_stats trendDb "org/repo").getD
    { total_runs := 0, avg_score := 0, best_score := 0,
      worst_score := 0, passed_runs := 0, blocked_runs := 0,
      pass_rate := 0 }

/-- Witness for `store_empty_repo_distinguished`: the empty store has
empty query results, and the three-run store reports pass rate
`round1 (2/3·100) = 66.7`. -/
theorem store_empty_repo_distinguished_witness :
    (query_trend ([] : List ScoreRun) "org/repo" 30 = [] ∧
     query_latest ([] : List ScoreRun) "org/repo" none = none ∧
     query_stats ([] : List ScoreRun) "org/repo" = none) ∧
    (trendStats.pass_rate =
      round1 ((trendStats.passed_runs : ℚ) /
        (trendStats.total_runs : ℚ) * 100) ∧
     0 < trendStats.total_runs) :=
  ⟨(store_empty_repo_distinguished [] "org/repo" 30 none).1 rfl,
   (store_empty_repo_distinguished trendDb "org/repo" 30 none).2
     trendStats rfl⟩

/-- C9: recording a run and immediately querying the latest run of the
same repository returns the recorded run with its score unchanged, and
the returned row id is strictly greater than every previously stored
row id. -/
theorem record_run_roundtrip (db : List ScoreRun) (now : ℕ) (score : ℚ)
    (repo branch : String) (pr : Option ℤ) (sha : String)
    (threshold : ℚ) (cx cov ap : Option ℚ)
    (hts : ∀ r ∈ db, r.recorded_at ≤ now) :
    ∃ run : ScoreRun,
      query_latest
        (record_run db now score repo branch pr sha threshold cx cov
          ap).1 repo none = some run ∧
      run.score = score ∧
      run.id =
        (record_run db now score repo branch pr sha threshold cx cov
          ap).2 ∧
      ∀ r ∈ db, r.id <
        (record_run db now score repo branch pr sha threshold cx cov
          ap).2 := by
  set newRun : ScoreRun :=
    { id := maxRowId db + 1, recorded_at := now, repo := repo,
      branch := branch, pr := pr, sha := sha, score := score,
      passed := decide (score ≥ threshold), threshold := threshold,
      complexity_score := cx, coverage_score := cov,
      antipattern_score := ap } with hnew
  have hfilter :
      (db ++ [newRun]).filter (fun r => r.repo == repo) =
        db.filter (fun r => r.repo == repo) ++ [newRun] := by
    rw [List.filter_append]
    simp [hnew]
  have hmem : newRun ∈ (db ++ [newRun]).filter (fun r => r.repo == repo) := by
    rw [hfilter]
    exact List.mem_append_right _ (List.mem_singleton.mpr rfl)
  refine ⟨newRun, ?_, rfl, rfl, fun r hr =>
    Nat.lt_succ_of_le (le_maxRowId hr)⟩
  show (sortDesc ((db ++ [newRun]).filter (fun r => r.repo == repo))).head?
      = some newRun
  cases hsd : sortDesc ((db ++ [newRun]).filter (fun r => r.repo == repo)) with
  | nil =>
    exact absurd (mem_sortDesc.mpr hmem) (by rw [hsd]; exact List.not_mem_nil _)
  | cons hd tl =>
    obtain ⟨hhd_mem, hhd_ge⟩ := sortDesc_head_ge hsd
    have hhd : hd = newRun := by
      rw [hfilter] at hhd_mem
      rcases List.mem_append.mp hhd_mem with hin | hone
      · have hdb := List.mem_of_mem_filter hin
        have h1 : hd.recorded_at ≤ now := hts hd hdb
        have h2 : hd.id ≤ maxRowId db := le_maxRowId hdb
        have hge := hhd_ge newRun hmem
        unfold runBefore at hge
        rw [hnew] at hge
        simp only at hge
        omega
      · exact List.mem_singleton.mp hone
    rw [hhd]
    rfl

/-- Witness for `record_run_roundtrip`: recording score 82.5 into the
empty store and asking for the latest run. -/
theorem record_run_roundtrip_witness :
    ∃ run : ScoreRun,
      query_latest
        (record_run [] 5 (165/2) "org/repo" "main" none "abc1234" 70
          none none none).1 "org/repo" none = some run ∧
      run.score = 165/2 ∧
      run.id =
        (record_run [] 5 (165/2) "org/repo" "main" none "abc1234" 70
          none none none).2 ∧
      ∀ r ∈ ([] : List ScoreRun), r.id <
        (record_run [] 5 (165/2) "org/repo" "main" none "abc1234" 70
          none none none).2 :=
  record_run_roundtrip [] 5 (165/2) "org/repo" "main" none "abc1234" 70
    none none none (by simp)

end AiCodeGate
